import Mathlib

/-!
Verification of the ProsperousMonkeys trading repository.

The repository contains two per-tick decision engines (`Trader.run` in
`EXAMPLE/AlanTrader.py` and in `EXAMPLE/example.py`) and a diagnostics
serializer (`Logger` in both files, identical text).  This file embeds those
programs shallowly:

* Python `dict[int, int]` order-book sides become insertion-ordered
  association lists; `min(d.keys())` / `max(d.keys())` become `minKey` /
  `maxKey` returning `Option Int` (`None` on an empty dict, as in the source
  conditional expressions).
* Python float arithmetic on the threshold constants is modelled by exact
  rational arithmetic.  For each comparison these claims exercise, the IEEE
  double value of the source expression was checked to agree with the exact
  rational on every integer operand (e.g. the double `10000 * 0.9999`
  evaluates to exactly `9999.0`, and `10000 * 1.0001` to exactly `10001.0`),
  so the rational model decides each guard exactly as CPython does.
* A `dict[key]` subscript can raise `KeyError`; the run functions therefore
  return `Except PyErr`, and totality ("never raises") is a theorem, not an
  assumption.
* `Trader.get_current_timestamp` (wall clock) is called only by
  `track_commodity`, which appends to `self.commodity_history`; that history
  is never read while forming the returned `(result, conversions,
  trader_data)` tuple, so the embedded run functions take the snapshot only
  and the returned value has no wall-clock argument at all.
* `datamodel.py` is not part of this repository's sources.  Modelled from the
  spec: `TradingState`, `Listing`, trades and observations carry exactly the
  fields the repository reads (spec section 3 and section 6); strings that
  reach the Logger are `List Char` so that length computations reduce in the
  kernel.
-/

namespace ProsperousMonkeys

/-- A Python `dict[int, int]` (an order-book side), as an insertion-ordered
association list with the usual dict invariant of unique keys. -/
abbrev IntDict := List (Int × Int)

/-- `min(d.keys()) if d else None`: the smallest key of a dict, `none` when
the dict is empty (AlanTrader.py line 175, example.py line 166). -/
def minKey (d : IntDict) : Option Int :=
  (d.map Prod.fst).min?

/-- `max(d.keys()) if d else None` (AlanTrader.py line 176, example.py
line 167). -/
def maxKey (d : IntDict) : Option Int :=
  (d.map Prod.fst).max?

/-- Python dict subscript `d[k]`: `some` value, or `none` standing for a
`KeyError`. -/
def dictGet (d : IntDict) (k : Int) : Option Int :=
  (d.find? (fun e => e.1 == k)).map Prod.snd

/-- `state.position.get(product, 0)` (AlanTrader.py line 173, example.py
line 163). -/
def posGet (position : List (String × Int)) (p : String) : Int :=
  ((position.find? (fun e => e.1 == p)).map Prod.snd).getD 0

/-- The runtime errors the embedded code can raise: only a dict subscript
miss. -/
inductive PyErr where
  | keyError
deriving DecidableEq

/-- `datamodel.Order` as AlanTrader.py constructs it: symbol, integer price,
signed integer quantity (positive buys, negative sells). -/
structure Order where
  symbol : String
  price : Int
  quantity : Int
deriving DecidableEq

/-- `datamodel.OrderDepth`: the two sides of one instrument's book. -/
structure OrderDepth where
  buy_orders : IntDict
  sell_orders : IntDict
deriving DecidableEq

/-- Ask-side branch of the fixed-reference product blocks of
`AlanTrader.Trader.run` (RAINFOREST_RESIN lines 181-185, SQUID_INK lines
214-218, CROISSANTS lines 229-233 are textually identical up to the constants
passed here):

    if best_ask and best_ask < acceptable_price * buy_factor:
        volume = min(-order_depth.sell_orders[best_ask],
                     self.position_limits[product] - current_position)
        orders.append(Order(product, best_ask, volume))

`best_ask and ...` is Python truthiness: `None` and the number `0` both fail
the guard. -/
def fixedAskOrder (product : String) (acceptable buyFactor : ℚ) (limit : Int)
    (sell_orders : IntDict) (current_position : Int) : Except PyErr (Option Order) :=
  match minKey sell_orders with
  | none => .ok none
  | some best_ask =>
    if best_ask ≠ 0 ∧ (best_ask : ℚ) < acceptable * buyFactor then
      match dictGet sell_orders best_ask with
      | none => .error .keyError
      | some q => .ok (some ⟨product, best_ask, min (-q) (limit - current_position)⟩)
    else .ok none

/-- Bid-side branch of the fixed-reference product blocks of
`AlanTrader.Trader.run` (lines 187-191, 220-224, 235-239):

    if best_bid and best_bid > acceptable_price * sell_factor:
        volume = min(order_depth.buy_orders[best_bid],
                     self.position_limits[product] - current_position)
        orders.append(Order(product, best_bid, -volume))

Note the source really sizes the sell with `position_limits[product] -
current_position` (not `+`). -/
def fixedBidOrder (product : String) (acceptable sellFactor : ℚ) (limit : Int)
    (buy_orders : IntDict) (current_position : Int) : Except PyErr (Option Order) :=
  match maxKey buy_orders with
  | none => .ok none
  | some best_bid =>
    if best_bid ≠ 0 ∧ acceptable * sellFactor < (best_bid : ℚ) then
      match dictGet buy_orders best_bid with
      | none => .error .keyError
      | some q => .ok (some ⟨product, best_bid, -(min q (limit - current_position))⟩)
    else .ok none

/-- KELP reference price, AlanTrader.py line 195 (example.py line 188 is
identical):

    acceptable_price = (best_ask + best_bid)/2 if (best_ask and best_bid)
                       else self.acceptable_prices[product]

with `acceptable_prices["KELP"] = 2_000`.  Truthiness again: a side that is
missing (`None`) or whose best price is the number `0` selects the fallback. -/
def kelpAcceptable : Option Int → Option Int → ℚ
  | some best_ask, some best_bid =>
    if best_ask ≠ 0 ∧ best_bid ≠ 0 then ((best_ask : ℚ) + best_bid) / 2 else 2000
  | _, _ => 2000

/-- Ask-side branch of the KELP block of `AlanTrader.Trader.run`
(lines 197-202); this is the only variant that guards `if volume > 0`. -/
def kelpAskOrder (sell_orders buy_orders : IntDict) (current_position : Int) :
    Except PyErr (Option Order) :=
  let acceptable := kelpAcceptable (minKey sell_orders) (maxKey buy_orders)
  match minKey sell_orders with
  | none => .ok none
  | some best_ask =>
    if best_ask ≠ 0 ∧ (best_ask : ℚ) < acceptable * 0.95 then
      match dictGet sell_orders best_ask with
      | none => .error .keyError
      | some q =>
        let volume := min (-q) (50 - current_position)
        .ok (if 0 < volume then some ⟨"KELP", best_ask, volume⟩ else none)
    else .ok none

/-- Bid-side branch of the KELP block of `AlanTrader.Trader.run`
(lines 204-209). -/
def kelpBidOrder (sell_orders buy_orders : IntDict) (current_position : Int) :
    Except PyErr (Option Order) :=
  let acceptable := kelpAcceptable (minKey sell_orders) (maxKey buy_orders)
  match maxKey buy_orders with
  | none => .ok none
  | some best_bid =>
    if best_bid ≠ 0 ∧ acceptable * 1.05 < (best_bid : ℚ) then
      match dictGet buy_orders best_bid with
      | none => .error .keyError
      | some q =>
        let volume := min q (50 - current_position)
        .ok (if 0 < volume then some ⟨"KELP", best_bid, -volume⟩ else none)
    else .ok none

/-- Ask-side branch of the DJEMBES block (AlanTrader.py lines 244-248): the
fixed-reference test plus the absolute price corridor `best_ask > 13378 and
best_ask < 13390`. -/
def djembesAskOrder (sell_orders : IntDict) (current_position : Int) :
    Except PyErr (Option Order) :=
  match minKey sell_orders with
  | none => .ok none
  | some best_ask =>
    if best_ask ≠ 0 ∧ (best_ask : ℚ) < 13380 * 0.99985 ∧ 13378 < best_ask ∧ best_ask < 13390 then
      match dictGet sell_orders best_ask with
      | none => .error .keyError
      | some q => .ok (some ⟨"DJEMBES", best_ask, min (-q) (60 - current_position)⟩)
    else .ok none

/-- Bid-side branch of the DJEMBES block (AlanTrader.py lines 250-254),
corridor `best_bid < 13390 and best_bid > 13375`. -/
def djembesBidOrder (buy_orders : IntDict) (current_position : Int) :
    Except PyErr (Option Order) :=
  match maxKey buy_orders with
  | none => .ok none
  | some best_bid =>
    if best_bid ≠ 0 ∧ 13380 * 1.00015 < (best_bid : ℚ) ∧ best_bid < 13390 ∧ 13375 < best_bid then
      match dictGet buy_orders best_bid with
      | none => .error .keyError
      | some q => .ok (some ⟨"DJEMBES", best_bid, -(min q (60 - current_position))⟩)
    else .ok none

/-- The ask-side (buy-emitting) branch of the per-product `if/elif` dispatch
of `AlanTrader.Trader.run` (lines 178-254), with each product's constants
from `__init__` (lines 126-140); an unconfigured product emits nothing. -/
def askPart (product : String) (od : OrderDepth) (current_position : Int) :
    Except PyErr (Option Order) :=
  if product = "RAINFOREST_RESIN" then
    fixedAskOrder product 10000 0.9999 50 od.sell_orders current_position
  else if product = "KELP" then
    kelpAskOrder od.sell_orders od.buy_orders current_position
  else if product = "SQUID_INK" then
    fixedAskOrder product 1870 0.99 50 od.sell_orders current_position
  else if product = "CROISSANTS" then
    fixedAskOrder product 4270 0.9999 250 od.sell_orders current_position
  else if product = "DJEMBES" then
    djembesAskOrder od.sell_orders current_position
  else .ok none

/-- The bid-side (sell-emitting) branch of the same dispatch. -/
def bidPart (product : String) (od : OrderDepth) (current_position : Int) :
    Except PyErr (Option Order) :=
  if product = "RAINFOREST_RESIN" then
    fixedBidOrder product 10000 1.0001 50 od.buy_orders current_position
  else if product = "KELP" then
    kelpBidOrder od.sell_orders od.buy_orders current_position
  else if product = "SQUID_INK" then
    fixedBidOrder product 1870 1.01 50 od.buy_orders current_position
  else if product = "CROISSANTS" then
    fixedBidOrder product 4270 1.0001 250 od.buy_orders current_position
  else if product = "DJEMBES" then
    djembesBidOrder od.buy_orders current_position
  else .ok none

/-- One iteration of the product loop of `AlanTrader.Trader.run`: the `orders`
list accumulated for one product, ask branch first, then bid branch, exactly
the append order of the source. -/
def productOrders (product : String) (od : OrderDepth) (current_position : Int) :
    Except PyErr (List Order) :=
  match askPart product od current_position with
  | .error e => .error e
  | .ok a =>
    match bidPart product od current_position with
    | .error e => .error e
    | .ok b => .ok (a.toList ++ b.toList)

/-- The `for product in state.order_depths.keys()` loop of
`AlanTrader.Trader.run` (lines 170-257), including the final
`if orders: result[product] = orders`. -/
def runAlanAux (position : List (String × Int)) :
    List (String × OrderDepth) → Except PyErr (List (String × List Order))
  | [] => .ok []
  | (product, od) :: rest =>
    match productOrders product od (posGet position product) with
    | .error e => .error e
    | .ok orders =>
      match runAlanAux position rest with
      | .error e => .error e
      | .ok restResult =>
        .ok (if orders.isEmpty then restResult else (product, orders) :: restResult)

/-- `datamodel.Listing`.  Modelled from the spec: `datamodel.py` is not in
this repository; section 6 and `Logger.compress_listings` fix the three
fields. -/
structure Listing where
  symbol : String
  product : String
  denomination : String
deriving DecidableEq

/-- `datamodel.Trade`.  Modelled from the spec: the six fields
`Logger.compress_trades` reads. -/
structure TradeRec where
  symbol : String
  price : Int
  quantity : Int
  buyer : List Char
  seller : List Char
  timestamp : Int
deriving DecidableEq

/-- `datamodel.ConversionObservation`.  Modelled from the spec: the seven
numeric fields `Logger.compress_observations` reads, as integers (spec
section 6 calls them auxiliary numeric data). -/
structure ConversionObservation where
  bidPrice : Int
  askPrice : Int
  transportFees : Int
  exportTariff : Int
  importTariff : Int
  sugarPrice : Int
  sunlightIndex : Int
deriving DecidableEq

/-- `datamodel.Observation`.  Modelled from the spec: the two mappings
`Logger.compress_observations` reads. -/
structure Observations where
  plainValueObservations : List (String × Int)
  conversionObservations : List (String × ConversionObservation)
deriving DecidableEq

/-- `datamodel.TradingState`.  Modelled from the spec: the snapshot fields of
spec section 6 (`timestamp`, `traderData`, book mapping, positions,
observations) plus the listing/trade mappings the Logger serializes. -/
structure TradingState where
  timestamp : Int
  traderData : List Char
  listings : List (String × Listing)
  order_depths : List (String × OrderDepth)
  own_trades : List (String × List TradeRec)
  market_trades : List (String × List TradeRec)
  position : List (String × Int)
  observations : Observations
deriving DecidableEq

/-- `AlanTrader.Trader.run` (lines 165-260): the returned
`(result, conversions, trader_data)` tuple.  `conversions` is the literal `0`
of line 167 and `trader_data` the literal `""` of line 168; the snapshot's
`traderData`, `timestamp`, trades, listings and observations are never read
while the tuple is formed, and the wall clock of `get_current_timestamp`
flows only into `commodity_history`, which the return value does not
mention. -/
def runAlan (state : TradingState) :
    Except PyErr (List (String × List Order) × Int × List Char) :=
  match runAlanAux state.position state.order_depths with
  | .error e => .error e
  | .ok result => .ok (result, 0, [])

/-- `datamodel.Order` as example.py constructs it: in the SQUID_INK block
(line 219) the price argument is `best_bid`, which can be Python `None`, so
the price field is optional here. -/
structure OrderE where
  symbol : String
  price : Option Int
  quantity : Int
deriving DecidableEq

/-- One iteration of the product loop of `example.Trader.run` (lines
154-221).  Differences from AlanTrader faithfully kept: thresholds 0.97/1.03
for RAINFOREST_RESIN and SQUID_INK, `acceptable_prices["SQUID_INK"] = 1_800`,
the bid-side orders are appended with the *positive* `volume` (lines 185,
201, 219 have no minus sign), and the SQUID_INK block appends its bid-side
order outside the bid guard, under `if volume != 0` (lines 218-219), reusing
whatever `volume` the ask branch left behind and the possibly-`None`
`best_bid` as price.  The `spread` of line 170 is computed but never used, so
it is omitted. -/
def exampleProductOrders (product : String) (od : OrderDepth) (current_position : Int) :
    Except PyErr (List OrderE) :=
  if product = "RAINFOREST_RESIN" then
    match
      (match minKey od.sell_orders with
       | none => Except.ok (none : Option OrderE)
       | some best_ask =>
         if best_ask ≠ 0 ∧ (best_ask : ℚ) < 10000 * 0.97 then
           match dictGet od.sell_orders best_ask with
           | none => .error PyErr.keyError
           | some q => .ok (some ⟨product, some best_ask, min (-q) (50 - current_position)⟩)
         else .ok none) with
    | .error e => .error e
    | .ok a =>
      match
        (match maxKey od.buy_orders with
         | none => Except.ok (none : Option OrderE)
         | some best_bid =>
           if best_bid ≠ 0 ∧ (10000 : ℚ) * 1.03 < (best_bid : ℚ) then
             match dictGet od.buy_orders best_bid with
             | none => .error PyErr.keyError
             | some q => .ok (some ⟨product, some best_bid, min q (50 - current_position)⟩)
           else .ok none) with
      | .error e => .error e
      | .ok b => .ok (a.toList ++ b.toList)
  else if product = "KELP" then
    let acceptable := kelpAcceptable (minKey od.sell_orders) (maxKey od.buy_orders)
    match
      (match minKey od.sell_orders with
       | none => Except.ok (none : Option OrderE)
       | some best_ask =>
         if best_ask ≠ 0 ∧ (best_ask : ℚ) < acceptable * 0.95 then
           match dictGet od.sell_orders best_ask with
           | none => .error PyErr.keyError
           | some q =>
             let volume := min (-q) (50 - current_position)
             .ok (if 0 < volume then some ⟨product, some best_ask, volume⟩ else none)
         else .ok none) with
    | .error e => .error e
    | .ok a =>
      match
        (match maxKey od.buy_orders with
         | none => Except.ok (none : Option OrderE)
         | some best_bid =>
           if best_bid ≠ 0 ∧ acceptable * 1.05 < (best_bid : ℚ) then
             match dictGet od.buy_orders best_bid with
             | none => .error PyErr.keyError
             | some q =>
               let volume := min q (50 - current_position)
               .ok (if 0 < volume then some ⟨product, some best_bid, volume⟩ else none)
           else .ok none) with
      | .error e => .error e
      | .ok b => .ok (a.toList ++ b.toList)
  else if product = "SQUID_INK" then
    match
      (match minKey od.sell_orders with
       | none => Except.ok (([] : List OrderE), (0 : Int))
       | some best_ask =>
         if best_ask ≠ 0 ∧ (best_ask : ℚ) < 1800 * 0.97 then
           match dictGet od.sell_orders best_ask with
           | none => .error PyErr.keyError
           | some q =>
             let volume := min (-q) (50 - current_position)
             .ok ([(⟨product, some best_ask, volume⟩ : OrderE)], volume)
         else .ok ([], 0)) with
    | .error e => .error e
    | .ok step1 =>
      match
        (match maxKey od.buy_orders with
         | none => Except.ok step1.2
         | some best_bid =>
           if best_bid ≠ 0 ∧ (1800 : ℚ) * 1.03 < (best_bid : ℚ) then
             match dictGet od.buy_orders best_bid with
             | none => .error PyErr.keyError
             | some q => .ok (min q (50 - current_position))
           else .ok step1.2) with
      | .error e => .error e
      | .ok volume =>
        .ok (if volume ≠ 0 then
              step1.1 ++ [⟨product, maxKey od.buy_orders, volume⟩]
             else step1.1)
  else .ok []

/-- The product loop of `example.Trader.run`: unlike AlanTrader, line 221
stores `result[product] = orders` unconditionally, so every product of the
snapshot appears in the result, possibly with an empty list. -/
def runExampleAux (position : List (String × Int)) :
    List (String × OrderDepth) → Except PyErr (List (String × List OrderE))
  | [] => .ok []
  | (product, od) :: rest =>
    match exampleProductOrders product od (posGet position product) with
    | .error e => .error e
    | .ok orders =>
      match runExampleAux position rest with
      | .error e => .error e
      | .ok restResult => .ok ((product, orders) :: restResult)

/-- `example.Trader.run` (lines 144-224): returned tuple, `conversions = 0`,
`trader_data = ""`. -/
def runExample (state : TradingState) :
    Except PyErr (List (String × List OrderE) × Int × List Char) :=
  match runExampleAux state.position state.order_depths with
  | .error e => .error e
  | .ok result => .ok (result, 0, [])

/-! ## Logger (identical in AlanTrader.py and example.py, lines 7-118)

`Logger.flush` serializes `[compressed state, compressed orders, conversions,
trader_data, logs]` with `json.dumps(value, cls=ProsperityEncoder,
separators=(",", ":"))`.  The JSON encoder below models CPython's
`json.dumps` with those separators and the default `ensure_ascii=True`
(integer dict keys become quoted decimal strings, non-ASCII and control
characters become `\uXXXX`, astral characters a surrogate pair). -/

/-- JSON value shape produced by the Logger's compress functions. -/
inductive JVal where
  | jnum : Int → JVal
  | jstr : List Char → JVal
  | jarr : List JVal → JVal
  | jobj : List (List Char × JVal) → JVal

/-- Lowercase hex digit, as CPython emits in `\uXXXX`. -/
def hexDigit (n : Nat) : Char :=
  if n < 10 then Char.ofNat (48 + n) else Char.ofNat (87 + n)

/-- Four-digit lowercase hex. -/
def hex4 (n : Nat) : List Char :=
  [hexDigit (n / 4096 % 16), hexDigit (n / 256 % 16), hexDigit (n / 16 % 16), hexDigit (n % 16)]

/-- JSON escape of one character (CPython `json.encoder.py_encode_basestring_ascii`). -/
def escapeChar (c : Char) : List Char :=
  if c = '"' then ['\\', '"']
  else if c = '\\' then ['\\', '\\']
  else if c = Char.ofNat 10 then ['\\', 'n']
  else if c = Char.ofNat 9 then ['\\', 't']
  else if c = Char.ofNat 13 then ['\\', 'r']
  else if c = Char.ofNat 8 then ['\\', 'b']
  else if c = Char.ofNat 12 then ['\\', 'f']
  else if c.toNat < 32 then '\\' :: 'u' :: hex4 c.toNat
  else if c.toNat < 128 then [c]
  else if c.toNat < 65536 then '\\' :: 'u' :: hex4 c.toNat
  else
    ('\\' :: 'u' :: hex4 (55296 + (c.toNat - 65536) / 1024)) ++
    ('\\' :: 'u' :: hex4 (56320 + (c.toNat - 65536) % 1024))

/-- A JSON string literal: quotes around the escaped characters. -/
def jstrEnc (s : List Char) : List Char :=
  '"' :: (s.map escapeChar).flatten ++ ['"']

/-- Decimal rendering of an integer, as CPython's `json.dumps` emits it. -/
def intChars (n : Int) : List Char :=
  if n < 0 then '-' :: Nat.toDigits 10 n.natAbs else Nat.toDigits 10 n.toNat

mutual

/-- `json.dumps(value, separators=(",", ":"))`: no whitespace. -/
def encode : JVal → List Char
  | .jnum n => intChars n
  | .jstr s => jstrEnc s
  | .jarr xs => '[' :: encodeItems xs ++ [']']
  | .jobj kvs => Char.ofNat 123 :: encodeEntries kvs ++ [Char.ofNat 125]

/-- Comma-joined array items. -/
def encodeItems : List JVal → List Char
  | [] => []
  | [v] => encode v
  | v :: v2 :: rest => encode v ++ ',' :: encodeItems (v2 :: rest)

/-- Comma-joined `"key":value` object entries. -/
def encodeEntries : List (List Char × JVal) → List Char
  | [] => []
  | (k, v) :: [] => jstrEnc k ++ ':' :: encode v
  | (k, v) :: e2 :: rest => jstrEnc k ++ ':' :: encode v ++ ',' :: encodeEntries (e2 :: rest)

end

/-- `Logger.compress_listings` (lines 57-62). -/
def compressListings (listings : List (String × Listing)) : JVal :=
  .jarr (listings.map fun e =>
    .jarr [.jstr e.2.symbol.data, .jstr e.2.product.data, .jstr e.2.denomination.data])

/-- One order-book side as `json.dumps` renders a `dict[int, int]`: the
integer keys become quoted decimal strings. -/
def jsonSide (d : IntDict) : JVal :=
  .jobj (d.map fun kv => (intChars kv.1, .jnum kv.2))

/-- `Logger.compress_order_depths` (lines 64-69). -/
def compressOrderDepths (depths : List (String × OrderDepth)) : JVal :=
  .jobj (depths.map fun e =>
    (e.1.data, .jarr [jsonSide e.2.buy_orders, jsonSide e.2.sell_orders]))

/-- `Logger.compress_trades` (lines 71-86): one flat array over all products. -/
def compressTrades (trades : List (String × List TradeRec)) : JVal :=
  .jarr ((trades.map fun e => e.2.map fun t =>
    JVal.jarr [.jstr t.symbol.data, .jnum t.price, .jnum t.quantity,
               .jstr t.buyer, .jstr t.seller, .jnum t.timestamp]).flatten)

/-- `Logger.compress_observations` (lines 88-101). -/
def compressObservations (obs : Observations) : JVal :=
  .jarr [.jobj (obs.plainValueObservations.map fun e => (e.1.data, .jnum e.2)),
         .jobj (obs.conversionObservations.map fun e =>
           (e.1.data, .jarr [.jnum e.2.bidPrice, .jnum e.2.askPrice,
                             .jnum e.2.transportFees, .jnum e.2.exportTariff,
                             .jnum e.2.importTariff, .jnum e.2.sugarPrice,
                             .jnum e.2.sunlightIndex]))]

/-- `Logger.compress_state` (lines 45-55). -/
def compressState (state : TradingState) (trader_data : List Char) : JVal :=
  .jarr [.jnum state.timestamp, .jstr trader_data,
         compressListings state.listings,
         compressOrderDepths state.order_depths,
         compressTrades state.own_trades,
         compressTrades state.market_trades,
         .jobj (state.position.map fun e => (e.1.data, .jnum e.2)),
         compressObservations state.observations]

/-- `Logger.compress_orders` (lines 103-109): one flat array over all
products. -/
def compressOrders (orders : List (String × List Order)) : JVal :=
  .jarr ((orders.map fun e => e.2.map fun o =>
    JVal.jarr [.jstr o.symbol.data, .jnum o.price, .jnum o.quantity]).flatten)

/-- Python `value[:i]` on a string, including the negative-index and
out-of-range semantics. -/
def pySliceTo (l : List Char) (i : Int) : List Char :=
  l.take ((if i < 0 then (l.length : Int) + i else i).toNat)

/-- `Logger.truncate` (lines 114-118):

    if len(value) <= max_length: return value
    return value[: max_length - 3] + "..."
-/
def truncateStr (value : List Char) (max_length : Int) : List Char :=
  if (value.length : Int) ≤ max_length then value
  else pySliceTo value (max_length - 3) ++ ['.', '.', '.']

/-- `Logger.print` (lines 12-13) for one string object with the default
separator and end: `self.logs += str(o) + "\n"`. -/
def loggerPrint (logs msg : List Char) : List Char :=
  logs ++ msg ++ [Char.ofNat 10]

/-- `Logger.flush` (lines 15-43): the record printed for offline inspection.
`logs` is the `self.logs` buffer accumulated through `Logger.print` at the
moment of the call; `max_log_length` is the literal 3750 of line 10 and the
`// 3` of line 29 is Python floor division. -/
def flushChars (logs : List Char) (state : TradingState)
    (orders : List (String × List Order)) (conversions : Int)
    (trader_data : List Char) : List Char :=
  let base_length : Int :=
    ((encode (.jarr [compressState state [], compressOrders orders,
                     .jnum conversions, .jstr [], .jstr []])).length : Int)
  let max_item_length : Int := Int.fdiv (3750 - base_length) 3
  encode (.jarr [compressState state (truncateStr state.traderData max_item_length),
                 compressOrders orders, .jnum conversions,
                 .jstr (truncateStr trader_data max_item_length),
                 .jstr (truncateStr logs max_item_length)])

/-! ## Achievable fills (spec section 8, position-limit invariant) -/

/-- A fill of one order: any quantity between no fill and the order's full
signed quantity. -/
def fillBetween (q f : Int) : Prop := (0 ≤ f ∧ f ≤ q) ∨ (q ≤ f ∧ f ≤ 0)

/-- An achievable total signed fill of a list of emitted orders: each order
fills independently somewhere between zero and its full quantity. -/
inductive AchievableFill : List Order → Int → Prop where
  | nil : AchievableFill [] 0
  | cons {o : Order} {os : List Order} {f t : Int} :
      fillBetween o.quantity f → AchievableFill os t → AchievableFill (o :: os) (f + t)

/-! ## Helper lemmas -/

/-- The best ask is a key of the ask side, so the subscript
`sell_orders[best_ask]` cannot raise `KeyError`. -/
theorem minKey_dictGet {d : IntDict} {a : Int} (h : minKey d = some a) :
    ∃ q, dictGet d a = some q := by
  have ha : a ∈ d.map Prod.fst := List.min?_mem (fun x y => min_choice x y) h
  rcases List.mem_map.mp ha with ⟨e, he, hea⟩
  have hs : (d.find? (fun e => e.1 == a)).isSome :=
    List.find?_isSome.mpr ⟨e, he, by simp [hea]⟩
  rcases Option.isSome_iff_exists.mp hs with ⟨e', he'⟩
  exact ⟨e'.2, by simp [dictGet, he']⟩

/-- The best bid is a key of the bid side. -/
theorem maxKey_dictGet {d : IntDict} {a : Int} (h : maxKey d = some a) :
    ∃ q, dictGet d a = some q := by
  have ha : a ∈ d.map Prod.fst := List.max?_mem (fun x y => max_choice x y) h
  rcases List.mem_map.mp ha with ⟨e, he, hea⟩
  have hs : (d.find? (fun e => e.1 == a)).isSome :=
    List.find?_isSome.mpr ⟨e, he, by simp [hea]⟩
  rcases Option.isSome_iff_exists.mp hs with ⟨e', he'⟩
  exact ⟨e'.2, by simp [dictGet, he']⟩

theorem fixedAskOrder_ok (product : String) (acc f : ℚ) (limit : Int)
    (sell : IntDict) (pos : Int) : ∃ o, fixedAskOrder product acc f limit sell pos = .ok o := by
  unfold fixedAskOrder
  cases hmk : minKey sell with
  | none => exact ⟨none, rfl⟩
  | some a =>
    dsimp only
    by_cases hg : a ≠ 0 ∧ (a : ℚ) < acc * f
    · rcases minKey_dictGet hmk with ⟨q, hq⟩
      rw [if_pos hg, hq]
      exact ⟨_, rfl⟩
    · rw [if_neg hg]
      exact ⟨none, rfl⟩

theorem fixedBidOrder_ok (product : String) (acc f : ℚ) (limit : Int)
    (buy : IntDict) (pos : Int) : ∃ o, fixedBidOrder product acc f limit buy pos = .ok o := by
  unfold fixedBidOrder
  cases hmk : maxKey buy with
  | none => exact ⟨none, rfl⟩
  | some b =>
    dsimp only
    by_cases hg : b ≠ 0 ∧ acc * f < (b : ℚ)
    · rcases maxKey_dictGet hmk with ⟨q, hq⟩
      rw [if_pos hg, hq]
      exact ⟨_, rfl⟩
    · rw [if_neg hg]
      exact ⟨none, rfl⟩

theorem kelpAskOrder_ok (sell buy : IntDict) (pos : Int) :
    ∃ o, kelpAskOrder sell buy pos = .ok o := by
  unfold kelpAskOrder
  cases hmk : minKey sell with
  | none => exact ⟨none, rfl⟩
  | some a =>
    dsimp only
    by_cases hg : a ≠ 0 ∧ (a : ℚ) < kelpAcceptable (some a) (maxKey buy) * 0.95
    · rcases minKey_dictGet hmk with ⟨q, hq⟩
      rw [if_pos hg, hq]
      exact ⟨_, rfl⟩
    · rw [if_neg hg]
      exact ⟨none, rfl⟩

theorem kelpBidOrder_ok (sell buy : IntDict) (pos : Int) :
    ∃ o, kelpBidOrder sell buy pos = .ok o := by
  unfold kelpBidOrder
  cases hmk : maxKey buy with
  | none => exact ⟨none, rfl⟩
  | some b =>
    dsimp only
    by_cases hg : b ≠ 0 ∧ kelpAcceptable (minKey sell) (some b) * 1.05 < (b : ℚ)
    · rcases maxKey_dictGet hmk with ⟨q, hq⟩
      rw [if_pos hg, hq]
      exact ⟨_, rfl⟩
    · rw [if_neg hg]
      exact ⟨none, rfl⟩

theorem djembesAskOrder_ok (sell : IntDict) (pos : Int) :
    ∃ o, djembesAskOrder sell pos = .ok o := by
  unfold djembesAskOrder
  cases hmk : minKey sell with
  | none => exact ⟨none, rfl⟩
  | some a =>
    dsimp only
    by_cases hg : a ≠ 0 ∧ (a : ℚ) < 13380 * 0.99985 ∧ 13378 < a ∧ a < 13390
    · rcases minKey_dictGet hmk with ⟨q, hq⟩
      rw [if_pos hg, hq]
      exact ⟨_, rfl⟩
    · rw [if_neg hg]
      exact ⟨none, rfl⟩

theorem djembesBidOrder_ok (buy : IntDict) (pos : Int) :
    ∃ o, djembesBidOrder buy pos = .ok o := by
  unfold djembesBidOrder
  cases hmk : maxKey buy with
  | none => exact ⟨none, rfl⟩
  | some b =>
    dsimp only
    by_cases hg : b ≠ 0 ∧ 13380 * 1.00015 < (b : ℚ) ∧ b < 13390 ∧ 13375 < b
    · rcases maxKey_dictGet hmk with ⟨q, hq⟩
      rw [if_pos hg, hq]
      exact ⟨_, rfl⟩
    · rw [if_neg hg]
      exact ⟨none, rfl⟩

theorem askPart_ok (p : String) (od : OrderDepth) (pos : Int) :
    ∃ o, askPart p od pos = .ok o := by
  unfold askPart
  split_ifs
  · exact fixedAskOrder_ok ..
  · exact kelpAskOrder_ok ..
  · exact fixedAskOrder_ok ..
  · exact fixedAskOrder_ok ..
  · exact djembesAskOrder_ok ..
  · exact ⟨none, rfl⟩

theorem bidPart_ok (p : String) (od : OrderDepth) (pos : Int) :
    ∃ o, bidPart p od pos = .ok o := by
  unfold bidPart
  split_ifs
  · exact fixedBidOrder_ok ..
  · exact kelpBidOrder_ok ..
  · exact fixedBidOrder_ok ..
  · exact fixedBidOrder_ok ..
  · exact djembesBidOrder_ok ..
  · exact ⟨none, rfl⟩

theorem productOrders_ok (p : String) (od : OrderDepth) (pos : Int) :
    ∃ os, productOrders p od pos = .ok os := by
  rcases askPart_ok p od pos with ⟨a, ha⟩
  rcases bidPart_ok p od pos with ⟨b, hb⟩
  refine ⟨a.toList ++ b.toList, ?_⟩
  unfold productOrders
  rw [ha, hb]

theorem runAlanAux_ok (depths : List (String × OrderDepth)) (position : List (String × Int)) :
    ∃ r, runAlanAux position depths = .ok r := by
  induction depths with
  | nil => exact ⟨[], rfl⟩
  | cons e rest ih =>
    rcases e with ⟨p, od⟩
    rcases productOrders_ok p od (posGet position p) with ⟨os, hos⟩
    rcases ih with ⟨r, hr⟩
    refine ⟨if os.isEmpty then r else (p, os) :: r, ?_⟩
    unfold runAlanAux
    rw [hos, hr]

/-- Every match of `minKey` against the empty side fails, so all ask branches
are silent on an empty ask side. -/
theorem askPart_sell_empty (p : String) (buy : IntDict) (pos : Int) :
    askPart p ⟨buy, []⟩ pos = .ok none := by
  unfold askPart
  split_ifs <;>
    simp [fixedAskOrder, kelpAskOrder, djembesAskOrder, minKey]

theorem bidPart_buy_empty (p : String) (sell : IntDict) (pos : Int) :
    bidPart p ⟨[], sell⟩ pos = .ok none := by
  unfold bidPart
  split_ifs <;>
    simp [fixedBidOrder, kelpBidOrder, djembesBidOrder, maxKey]

theorem kelpAcceptable_zero_left (x : Option Int) : kelpAcceptable (some 0) x = 2000 := by
  cases x <;> simp [kelpAcceptable]

theorem kelpAcceptable_none_left (x : Option Int) : kelpAcceptable none x = 2000 := by
  cases x <;> simp [kelpAcceptable]

theorem kelpAcceptable_zero_right (x : Option Int) : kelpAcceptable x (some 0) = 2000 := by
  cases x <;> simp [kelpAcceptable]

theorem kelpAcceptable_none_right (x : Option Int) : kelpAcceptable x none = 2000 := by
  cases x <;> simp [kelpAcceptable]

/-- A best ask equal to the number 0 fails every ask-side truthiness guard. -/
theorem askPart_sell_zero (p : String) (od : OrderDepth) (pos : Int)
    (h : minKey od.sell_orders = some 0) : askPart p od pos = .ok none := by
  unfold askPart
  split_ifs <;>
    simp [fixedAskOrder, kelpAskOrder, djembesAskOrder, h]

theorem bidPart_buy_zero (p : String) (od : OrderDepth) (pos : Int)
    (h : maxKey od.buy_orders = some 0) : bidPart p od pos = .ok none := by
  unfold bidPart
  split_ifs <;>
    simp [fixedBidOrder, kelpBidOrder, djembesBidOrder, h]

/-- Emptying an ask side whose best price is 0 does not change the bid
branch: only KELP's reference reads the ask side, and it falls back to 2000
in both cases. -/
theorem bidPart_sell_cleared (p : String) (od : OrderDepth) (pos : Int)
    (h : minKey od.sell_orders = some 0) :
    bidPart p od pos = bidPart p ⟨od.buy_orders, []⟩ pos := by
  unfold bidPart
  split_ifs
  · rfl
  · unfold kelpBidOrder
    simp only [h]
    simp only [minKey, List.map_nil, List.min?_nil]
    simp only [kelpAcceptable_zero_left, kelpAcceptable_none_left]
  · rfl
  · rfl
  · rfl
  · rfl

theorem askPart_buy_cleared (p : String) (od : OrderDepth) (pos : Int)
    (h : maxKey od.buy_orders = some 0) :
    askPart p od pos = askPart p ⟨[], od.sell_orders⟩ pos := by
  unfold askPart
  split_ifs
  · rfl
  · unfold kelpAskOrder
    simp only [h]
    simp only [maxKey, List.map_nil, List.max?_nil]
    simp only [kelpAcceptable_zero_right, kelpAcceptable_none_right]
  · rfl
  · rfl
  · rfl
  · rfl

theorem productOrders_sell_zero (p : String) (od : OrderDepth) (pos : Int)
    (h : minKey od.sell_orders = some 0) :
    productOrders p od pos = productOrders p ⟨od.buy_orders, []⟩ pos := by
  unfold productOrders
  rw [askPart_sell_zero p od pos h, askPart_sell_empty, ← bidPart_sell_cleared p od pos h]

theorem productOrders_buy_zero (p : String) (od : OrderDepth) (pos : Int)
    (h : maxKey od.buy_orders = some 0) :
    productOrders p od pos = productOrders p ⟨[], od.sell_orders⟩ pos := by
  unfold productOrders
  rw [bidPart_buy_zero p od pos h, bidPart_buy_empty, ← askPart_buy_cleared p od pos h]

/-- Replace the ask side of every entry of `p` with an empty dict. -/
def clearSellSide (depths : List (String × OrderDepth)) (p : String) :
    List (String × OrderDepth) :=
  depths.map fun e => if e.1 = p then (e.1, ⟨e.2.buy_orders, []⟩) else e

/-- Replace the bid side of every entry of `p` with an empty dict. -/
def clearBuySide (depths : List (String × OrderDepth)) (p : String) :
    List (String × OrderDepth) :=
  depths.map fun e => if e.1 = p then (e.1, ⟨[], e.2.sell_orders⟩) else e

theorem runAlanAux_clearSell (depths : List (String × OrderDepth))
    (position : List (String × Int)) (p : String)
    (h : ∀ e ∈ depths, e.1 = p → minKey e.2.sell_orders = some 0) :
    runAlanAux position depths = runAlanAux position (clearSellSide depths p) := by
  induction depths with
  | nil => rfl
  | cons e rest ih =>
    rcases e with ⟨prod, od⟩
    have hrest := ih (fun e he hep => h e (List.mem_cons_of_mem _ he) hep)
    by_cases hp : prod = p
    · have h0 := h (prod, od) (List.mem_cons_self _ _) hp
      simp only [clearSellSide, List.map_cons, if_pos hp]
      simp only [clearSellSide] at hrest
      simp [runAlanAux, productOrders_sell_zero prod od _ h0, hrest]
    · simp only [clearSellSide, List.map_cons, if_neg hp]
      simp only [clearSellSide] at hrest
      simp [runAlanAux, hrest]

theorem runAlanAux_clearBuy (depths : List (String × OrderDepth))
    (position : List (String × Int)) (p : String)
    (h : ∀ e ∈ depths, e.1 = p → maxKey e.2.buy_orders = some 0) :
    runAlanAux position depths = runAlanAux position (clearBuySide depths p) := by
  induction depths with
  | nil => rfl
  | cons e rest ih =>
    rcases e with ⟨prod, od⟩
    have hrest := ih (fun e he hep => h e (List.mem_cons_of_mem _ he) hep)
    by_cases hp : prod = p
    · have h0 := h (prod, od) (List.mem_cons_self _ _) hp
      simp only [clearBuySide, List.map_cons, if_pos hp]
      simp only [clearBuySide] at hrest
      simp [runAlanAux, productOrders_buy_zero prod od _ h0, hrest]
    · simp only [clearBuySide, List.map_cons, if_neg hp]
      simp only [clearBuySide] at hrest
      simp [runAlanAux, hrest]

theorem length_flatten_replicate (n : Nat) (l : List Char) :
    (List.flatten (List.replicate n l)).length = n * l.length := by
  induction n with
  | zero => simp
  | succ k ih => simp [List.replicate_succ, ih, Nat.succ_mul, Nat.add_comm]

/-! ## Claim inputs -/

/-- Snapshot with RAINFOREST_RESIN position already at the short limit `-50`
and a rich resting bid of 100 at 10002. -/
def stC1 : TradingState :=
  ⟨0, [], [], [("RAINFOREST_RESIN", ⟨[(10002, 100)], []⟩)], [], [],
   [("RAINFOREST_RESIN", -50)], ⟨[], []⟩⟩

/-- Snapshot with RAINFOREST_RESIN position already at the long limit `50`
and a cheap resting ask of 10 at 9998. -/
def stC2 : TradingState :=
  ⟨0, [], [], [("RAINFOREST_RESIN", ⟨[], [(9998, -10)]⟩)], [], [],
   [("RAINFOREST_RESIN", 50)], ⟨[], []⟩⟩

/-- Snapshot with RAINFOREST_RESIN position `-49` and a rich resting bid of
100 at 10002. -/
def stC3 : TradingState :=
  ⟨0, [], [], [("RAINFOREST_RESIN", ⟨[(10002, 100)], []⟩)], [], [],
   [("RAINFOREST_RESIN", -49)], ⟨[], []⟩⟩

/-- Snapshot whose `traderData` echo is 1300 backslash characters; used with
equally long `trader_data` and log strings. -/
def stC8 : TradingState :=
  ⟨0, List.replicate 1300 '\\', [], [], [], [], [], ⟨[], []⟩⟩

/-- Snapshot showing SQUID_INK a cheap ask (1700, quantity 10 resting) and a
rich bid (1860, quantity 5 resting) at position 0. -/
def stC9 : TradingState :=
  ⟨0, [], [], [("SQUID_INK", ⟨[(1860, 5)], [(1700, -10)]⟩)], [], [], [], ⟨[], []⟩⟩

/-- Snapshot whose KELP ask side is non-empty but has best price 0. -/
def stC10 : TradingState :=
  ⟨0, [], [], [("KELP", ⟨[(2010, 5)], [(0, -5)]⟩)], [], [], [], ⟨[], []⟩⟩

/-- Snapshot for example.py: SQUID_INK with a cheap ask and a *non-empty*
bid side whose best price is 0. -/
def stC10a : TradingState :=
  ⟨0, [], [], [("SQUID_INK", ⟨[(0, 5)], [(1700, -10)]⟩)], [], [], [], ⟨[], []⟩⟩

/-- The same snapshot with the bid side absent. -/
def stC10b : TradingState :=
  ⟨0, [], [], [("SQUID_INK", ⟨[], [(1700, -10)]⟩)], [], [], [], ⟨[], []⟩⟩

/-! ## Claims -/

/-- C1: the position-limit invariant fails on the code.  With the
RAINFOREST_RESIN position already at the limit `-50` and a rich bid of 100
resting at 10002, `Trader.run` emits a sell of signed quantity `-100`
(volume is sized with `position_limits - current_position = 100`); the full
fill `-100` is achievable, and `|-50 + -100| = 150 > 50`.  In particular an
order *is* emitted on the limit-breaching side with the position at the
limit. -/
theorem C1_position_limit_invariant_violated :
    runAlan stC1 = .ok ([("RAINFOREST_RESIN", [⟨"RAINFOREST_RESIN", 10002, -100⟩])], 0, []) ∧
    AchievableFill [⟨"RAINFOREST_RESIN", 10002, -100⟩] (-100) ∧
    (50 : Int) < |(-50 : Int) + (-100 : Int)| := by
  refine ⟨?_, ?_, by decide⟩
  · norm_num [stC1, runAlan, runAlanAux, productOrders, askPart, bidPart, fixedAskOrder,
      fixedBidOrder, minKey, maxKey, dictGet, posGet]
  · have h : AchievableFill [(⟨"RAINFOREST_RESIN", 10002, -100⟩ : Order)] (-100 + 0) :=
      .cons (Or.inr ⟨le_refl _, by norm_num⟩) .nil
    simpa using h

/-- C2: the unguarded fixed-reference blocks emit an order with non-positive
quantity.  With the RAINFOREST_RESIN position at the limit 50 and a cheap
ask at 9998, `Trader.run` emits a buy-side order whose quantity is 0 (the
claim and spec section 4.1 step 5 say no order may be emitted then). -/
theorem C2_nonpositive_quantity_order_emitted :
    runAlan stC2 = .ok ([("RAINFOREST_RESIN", [⟨"RAINFOREST_RESIN", 9998, 0⟩])], 0, []) ∧
    ¬ (0 : Int) < 0 := by
  refine ⟨?_, by decide⟩
  norm_num [stC2, runAlan, runAlanAux, productOrders, askPart, bidPart, fixedAskOrder,
    fixedBidOrder, minKey, maxKey, dictGet, posGet]

/-- C3: the sell volume is sized with `min(restingBidQuantity,
positionLimit - currentPosition)`, not the claim's `positionLimit +
currentPosition`.  At position `-49` with bid quantity 100 the code emits
signed quantity `-99 = -(min 100 (50 - (-49)))`, while the claim's formula
gives `-1 = -(min 100 (50 + (-49)))`. -/
theorem C3_sell_volume_formula_diverges :
    runAlan stC3 = .ok ([("RAINFOREST_RESIN", [⟨"RAINFOREST_RESIN", 10002, -99⟩])], 0, []) ∧
    (-99 : Int) = -(min 100 (50 - (-49))) ∧
    (-99 : Int) ≠ -(min 100 (50 + (-49))) := by
  refine ⟨?_, by decide, by decide⟩
  norm_num [stC3, runAlan, runAlanAux, productOrders, askPart, bidPart, fixedAskOrder,
    fixedBidOrder, minKey, maxKey, dictGet, posGet]

/-- C4: replay determinism.  The orders, conversions and state string
returned by `AlanTrader.Trader.run` depend only on the snapshot's order
books and positions: two snapshots agreeing on those fields produce the same
return value whatever their `traderData`, timestamp, trades, listings or
observations are, and the wall clock read by `get_current_timestamp` never
reaches the return value at all. -/
theorem C4_replay_determinism (s1 s2 : TradingState)
    (hdepth : s1.order_depths = s2.order_depths) (hpos : s1.position = s2.position) :
    runAlan s1 = runAlan s2 := by
  unfold runAlan
  rw [hdepth, hpos]

/-- C4 witness: identical books and positions, different `traderData` and
timestamp. -/
theorem C4_replay_determinism_witness :
    runAlan ⟨0, [], [], [("RAINFOREST_RESIN", ⟨[(10002, 5)], []⟩)], [], [], [], ⟨[], []⟩⟩ =
    runAlan ⟨12345, ['x', 'y'], [], [("RAINFOREST_RESIN", ⟨[(10002, 5)], []⟩)], [], [], [], ⟨[], []⟩⟩ :=
  C4_replay_determinism _ _ rfl rfl

/-- Combine the two branch results of one product iteration. -/
theorem productOrders_eq (p : String) (od : OrderDepth) (pos : Int) (a b : Option Order)
    (h1 : askPart p od pos = .ok a) (h2 : bidPart p od pos = .ok b) :
    productOrders p od pos = .ok (a.toList ++ b.toList) := by
  unfold productOrders
  rw [h1, h2]

/-- The RAINFOREST_RESIN ask branch at the boundary ask 9999: not cheap. -/
theorem resinAsk_at_9999 (q pos : Int) :
    askPart "RAINFOREST_RESIN" ⟨[], [(9999, q)]⟩ pos = .ok none := by
  simp only [askPart, fixedAskOrder, minKey, dictGet]
  norm_num

/-- The RAINFOREST_RESIN ask branch one price unit below the boundary: a buy
sized `min (-q) (50 - pos)`. -/
theorem resinAsk_at_9998 (q pos : Int) :
    askPart "RAINFOREST_RESIN" ⟨[], [(9998, q)]⟩ pos =
      .ok (some ⟨"RAINFOREST_RESIN", 9998, min (-q) (50 - pos)⟩) := by
  simp only [askPart, fixedAskOrder, minKey, dictGet]
  norm_num

/-- The RAINFOREST_RESIN block at the boundary ask 9999: no order. -/
theorem resinBlock_at_9999 (q pos : Int) :
    productOrders "RAINFOREST_RESIN" ⟨[], [(9999, q)]⟩ pos = .ok [] := by
  have h := productOrders_eq "RAINFOREST_RESIN" ⟨[], [(9999, q)]⟩ pos none none
    (resinAsk_at_9999 q pos) (bidPart_buy_empty "RAINFOREST_RESIN" [(9999, q)] pos)
  simpa using h

/-- The RAINFOREST_RESIN block one tick below the boundary: one buy order. -/
theorem resinBlock_at_9998 (q pos : Int) :
    productOrders "RAINFOREST_RESIN" ⟨[], [(9998, q)]⟩ pos =
      .ok [⟨"RAINFOREST_RESIN", 9998, min (-q) (50 - pos)⟩] := by
  have h := productOrders_eq "RAINFOREST_RESIN" ⟨[], [(9998, q)]⟩ pos
    (some ⟨"RAINFOREST_RESIN", 9998, min (-q) (50 - pos)⟩) none
    (resinAsk_at_9998 q pos) (bidPart_buy_empty "RAINFOREST_RESIN" [(9998, q)] pos)
  simpa using h

/-- `Trader.run` on a single-product snapshot, given the product block's
result. -/
theorem runAlan_single (ts : Int) (td : List Char) (ls : List (String × Listing))
    (ot mt : List (String × List TradeRec)) (obs : Observations)
    (p : String) (od : OrderDepth) (pos : Int) (os : List Order)
    (h : productOrders p od pos = .ok os) :
    runAlan ⟨ts, td, ls, [(p, od)], ot, mt, [(p, pos)], obs⟩ =
      .ok ((if os.isEmpty then [] else [(p, os)]), 0, []) := by
  have hpg : posGet [(p, pos)] p = pos := by simp [posGet]
  unfold runAlan runAlanAux
  dsimp only
  rw [hpg, h]
  rfl

/-- C5: threshold boundary for the fixed-reference RAINFOREST_RESIN strategy
(buy threshold 0.0001, reference 10000): an ask resting exactly at
`10000 * (1 - 0.0001) = 9999` triggers no order, an ask at 9998 triggers a
buy of `min(-q, 50 - pos)`, positive given resting quantity (`q < 0`) and
headroom (`pos < 50`). -/
theorem C5_threshold_boundary (q pos : Int) (hq : q < 0) (hpos : pos < 50) :
    runAlan ⟨0, [], [], [("RAINFOREST_RESIN", ⟨[], [(9999, q)]⟩)], [], [],
        [("RAINFOREST_RESIN", pos)], ⟨[], []⟩⟩ = .ok ([], 0, []) ∧
    runAlan ⟨0, [], [], [("RAINFOREST_RESIN", ⟨[], [(9998, q)]⟩)], [], [],
        [("RAINFOREST_RESIN", pos)], ⟨[], []⟩⟩ =
      .ok ([("RAINFOREST_RESIN", [⟨"RAINFOREST_RESIN", 9998, min (-q) (50 - pos)⟩])], 0, []) ∧
    0 < min (-q) (50 - pos) := by
  refine ⟨?_, ?_, by omega⟩
  · have h := runAlan_single 0 [] [] [] [] ⟨[], []⟩ "RAINFOREST_RESIN" ⟨[], [(9999, q)]⟩ pos []
      (resinBlock_at_9999 q pos)
    simpa using h
  · have h := runAlan_single 0 [] [] [] [] ⟨[], []⟩ "RAINFOREST_RESIN" ⟨[], [(9998, q)]⟩ pos
      [⟨"RAINFOREST_RESIN", 9998, min (-q) (50 - pos)⟩] (resinBlock_at_9998 q pos)
    simpa using h

/-- C5 witness: resting quantity 10 and position 0. -/
theorem C5_threshold_boundary_witness :
    runAlan ⟨0, [], [], [("RAINFOREST_RESIN", ⟨[], [(9999, -10)]⟩)], [], [],
        [("RAINFOREST_RESIN", 0)], ⟨[], []⟩⟩ = .ok ([], 0, []) ∧
    runAlan ⟨0, [], [], [("RAINFOREST_RESIN", ⟨[], [(9998, -10)]⟩)], [], [],
        [("RAINFOREST_RESIN", 0)], ⟨[], []⟩⟩ =
      .ok ([("RAINFOREST_RESIN", [⟨"RAINFOREST_RESIN", 9998, min (-(-10)) (50 - 0)⟩])], 0, []) ∧
    (0 : Int) < min (-(-10)) (50 - 0) :=
  C5_threshold_boundary (-10) 0 (by decide) (by decide)

/-- C6 counterexample: both book sides non-empty (ask side `[(0, -3)]`, bid
side `[(2010, 5)]`), yet the KELP reference price is the fallback 2000, not
the midpoint `(0 + 2010) / 2 = 1005`, because the truthiness test rejects
the best ask 0. -/
theorem C6_midpoint_claim_counterexample :
    ([((0 : Int), (-3 : Int))] : IntDict) ≠ [] ∧
    ([((2010 : Int), (5 : Int))] : IntDict) ≠ [] ∧
    kelpAcceptable (minKey [((0 : Int), (-3 : Int))]) (maxKey [((2010 : Int), (5 : Int))]) = 2000 ∧
    kelpAcceptable (minKey [((0 : Int), (-3 : Int))]) (maxKey [((2010 : Int), (5 : Int))]) ≠
      ((0 : ℚ) + 2010) / 2 := by
  have hmk : minKey [((0 : Int), (-3 : Int))] = some 0 := by decide
  have hxk : maxKey [((2010 : Int), (5 : Int))] = some 2010 := by decide
  rw [hmk, hxk]
  refine ⟨by decide, by decide, ?_, ?_⟩
  · norm_num [kelpAcceptable]
  · norm_num [kelpAcceptable]

/-- C6 amended: the KELP reference price equals the midpoint when both sides
are non-empty *and both best prices are nonzero*, and equals the fixed
fallback 2000 whenever a side is empty (a best price of 0 also falls back,
per C10). -/
theorem C6_midpoint_fallback_amended (sell buy : IntDict) (a b : Int) :
    (minKey sell = some a → maxKey buy = some b → a ≠ 0 → b ≠ 0 →
      kelpAcceptable (minKey sell) (maxKey buy) = ((a : ℚ) + b) / 2) ∧
    (sell = [] ∨ buy = [] → kelpAcceptable (minKey sell) (maxKey buy) = 2000) := by
  constructor
  · intro h1 h2 ha hb
    rw [h1, h2]
    simp [kelpAcceptable, ha, hb]
  · rintro (rfl | rfl)
    · simp only [minKey, List.map_nil, List.min?_nil, kelpAcceptable_none_left]
    · simp only [maxKey, List.map_nil, List.max?_nil, kelpAcceptable_none_right]

/-- C6 witness: a live midpoint `(2100 + 1950) / 2` and an empty-ask-side
fallback. -/
theorem C6_midpoint_fallback_witness :
    kelpAcceptable (minKey [((2100 : Int), (-3 : Int))]) (maxKey [((1950 : Int), (5 : Int))])
      = ((2100 : ℚ) + 1950) / 2 ∧
    kelpAcceptable (minKey ([] : IntDict)) (maxKey [((1950 : Int), (5 : Int))]) = 2000 :=
  ⟨(C6_midpoint_fallback_amended [((2100 : Int), (-3 : Int))] [((1950 : Int), (5 : Int))]
      2100 1950).1 (by decide) (by decide) (by decide) (by decide),
   (C6_midpoint_fallback_amended [] [((1950 : Int), (5 : Int))] 0 0).2 (Or.inl rfl)⟩

/-- C7: empty-side safety of `AlanTrader.Trader.run`: every snapshot
produces a result (no `KeyError` or other exception is ever raised), an
empty ask side emits no buy-branch order for any product, and an empty bid
side emits no sell-branch order. -/
theorem C7_empty_side_safety :
    (∀ s : TradingState, ∃ r, runAlan s = .ok r) ∧
    (∀ (p : String) (od : OrderDepth) (pos : Int),
      od.sell_orders = [] → askPart p od pos = .ok none) ∧
    (∀ (p : String) (od : OrderDepth) (pos : Int),
      od.buy_orders = [] → bidPart p od pos = .ok none) := by
  refine ⟨?_, ?_, ?_⟩
  · intro s
    unfold runAlan
    rcases runAlanAux_ok s.order_depths s.position with ⟨r, hr⟩
    rw [hr]
    exact ⟨_, rfl⟩
  · rintro p ⟨buy, sell⟩ pos h
    have h' : sell = [] := h
    subst h'
    exact askPart_sell_empty p buy pos
  · rintro p ⟨buy, sell⟩ pos h
    have h' : buy = [] := h
    subst h'
    exact bidPart_buy_empty p sell pos

/-- C7 witness: a concrete snapshot runs to a result; a resin book with no
ask side emits no buy; a KELP book with no bid side emits no sell. -/
theorem C7_empty_side_safety_witness :
    (∃ r, runAlan ⟨0, [], [], [("KELP", ⟨[(1900, 4)], []⟩)], [], [], [], ⟨[], []⟩⟩ = .ok r) ∧
    askPart "RAINFOREST_RESIN" ⟨[(10002, 5)], []⟩ 0 = .ok none ∧
    bidPart "KELP" ⟨[], [(1900, -4)]⟩ 0 = .ok none :=
  ⟨C7_empty_side_safety.1 _,
   C7_empty_side_safety.2.1 _ _ _ rfl,
   C7_empty_side_safety.2.2 _ _ _ rfl⟩

/-- C8: the Logger's byte budget is exceeded.  With the three string fields
each 1300 backslashes (characters whose JSON encoding is two characters),
`Logger.flush` truncates each to the raw budget 1236 but the escaped record
is 7449 characters long, far over `max_log_length = 3750`. -/
theorem C8_log_budget_exceeded :
    3750 < (flushChars (List.replicate 1300 '\\') stC8 [] 0 (List.replicate 1300 '\\')).length := by
  have hbase : (encode (.jarr [compressState stC8 [], compressOrders [], .jnum 0,
      .jstr [], .jstr []])).length = 42 := by decide
  have hesc : escapeChar '\\' = ['\\', '\\'] := by decide
  have hdot : escapeChar '.' = ['.'] := by decide
  have hm : Int.fdiv 3708 3 = 1236 := by decide
  have hdig : (Nat.toDigitsCore 10 1 0 []).length = 1 := by decide
  have htr : truncateStr (List.replicate 1300 '\\') 1236 =
      List.replicate 1233 '\\' ++ ['.', '.', '.'] := by
    norm_num [truncateStr, pySliceTo, List.take_replicate]
    decide
  simp only [flushChars, stC8] at *
  rw [hbase]
  norm_num [hm, htr, encode, encodeItems, encodeEntries, jstrEnc, intChars, compressState,
    compressListings, compressOrderDepths, compressTrades, compressObservations, compressOrders,
    jsonSide, List.map_append, List.flatten_append, List.map_replicate, hesc, hdot, hdig,
    List.sum_replicate, smul_eq_mul, Function.comp, Nat.toDigits]

/-- C9: `example.Trader.run` can emit two buy orders for one instrument on
one tick.  With SQUID_INK showing a cheap ask and a rich bid, the ask branch
appends a buy of +10 at 1700, and the stray `if volume != 0` append (line
219) adds a second *positive* order of +5 at the best bid 1860 — the sell
was never negated, so the instrument receives two buys. -/
theorem C9_duplicate_buy_orders :
    runExample stC9 = .ok ([("SQUID_INK",
      [⟨"SQUID_INK", some 1700, 10⟩, ⟨"SQUID_INK", some 1860, 5⟩])], 0, []) ∧
    (0 : Int) < 10 ∧ (0 : Int) < 5 := by
  have h1 : ("SQUID_INK" = "RAINFOREST_RESIN") = False := by decide
  have h2 : ("SQUID_INK" = "KELP") = False := by decide
  refine ⟨?_, by decide, by decide⟩
  simp only [stC9, runExample, runExampleAux, exampleProductOrders, minKey, maxKey,
    dictGet, posGet, h1, h2]
  norm_num

/-- C10 counterexample: `example.Trader.run` does *not* treat a bid side
with best price 0 exactly like an absent bid side.  The SQUID_INK stray
append (example.py line 219, outside the bid guard) copies the raw
`best_bid` into the order's price field, so the bid side `[(0, 5)]` yields a
second order at price `some 0` while the empty bid side yields it at price
`none` — two different run results. -/
theorem C10_zero_best_price_counterexample :
    runExample stC10a = .ok ([("SQUID_INK",
      [⟨"SQUID_INK", some 1700, 10⟩, ⟨"SQUID_INK", some 0, 10⟩])], 0, []) ∧
    runExample stC10b = .ok ([("SQUID_INK",
      [⟨"SQUID_INK", some 1700, 10⟩, ⟨"SQUID_INK", none, 10⟩])], 0, []) ∧
    runExample stC10a ≠ runExample stC10b := by
  have h1 : ("SQUID_INK" = "RAINFOREST_RESIN") = False := by decide
  have h2 : ("SQUID_INK" = "KELP") = False := by decide
  have ha : runExample stC10a = .ok ([("SQUID_INK",
      [⟨"SQUID_INK", some 1700, 10⟩, ⟨"SQUID_INK", some 0, 10⟩])], 0, []) := by
    simp only [stC10a, runExample, runExampleAux, exampleProductOrders, minKey, maxKey,
      dictGet, posGet, h1, h2]
    norm_num
  have hb : runExample stC10b = .ok ([("SQUID_INK",
      [⟨"SQUID_INK", some 1700, 10⟩, ⟨"SQUID_INK", none, 10⟩])], 0, []) := by
    simp only [stC10b, runExample, runExampleAux, exampleProductOrders, minKey, maxKey,
      dictGet, posGet, h1, h2]
    norm_num
  refine ⟨ha, hb, ?_⟩
  rw [ha, hb]
  simp

/-- C10 amended: a non-empty side whose best price is the number 0 is handled
by `AlanTrader.Trader.run` exactly like an absent side: replacing every such
ask (resp. bid) side of a product with the empty dict leaves the whole run
result unchanged, and the KELP reference price falls back to the constant
2000 for a zero best price just as for a missing side.  (In example.py the
same truthiness guards fire identically, but the stray SQUID_INK append
distinguishes the two cases through the emitted order's price field — see
the counterexample above — so the exactly-like-empty property is claimed
only of AlanTrader's run.) -/
theorem C10_zero_best_price_like_empty (s : TradingState) (p : String) :
    ((∀ e ∈ s.order_depths, e.1 = p → minKey e.2.sell_orders = some 0) →
      runAlan s = runAlan { s with order_depths := clearSellSide s.order_depths p }) ∧
    ((∀ e ∈ s.order_depths, e.1 = p → maxKey e.2.buy_orders = some 0) →
      runAlan s = runAlan { s with order_depths := clearBuySide s.order_depths p }) ∧
    (∀ x, kelpAcceptable (some 0) x = 2000) ∧
    (∀ x, kelpAcceptable x (some 0) = 2000) := by
  refine ⟨?_, ?_, kelpAcceptable_zero_left, kelpAcceptable_zero_right⟩
  · intro h
    rcases s with ⟨ts, td, ls, depths, ot, mt, posn, obs⟩
    unfold runAlan
    dsimp only at h ⊢
    rw [runAlanAux_clearSell depths posn p h]
  · intro h
    rcases s with ⟨ts, td, ls, depths, ot, mt, posn, obs⟩
    unfold runAlan
    dsimp only at h ⊢
    rw [runAlanAux_clearBuy depths posn p h]

/-- C10 witness: a KELP book with ask side `[(0, -5)]` runs exactly like the
same book with the ask side removed. -/
theorem C10_zero_best_price_witness :
    runAlan stC10 = runAlan { stC10 with order_depths := clearSellSide stC10.order_depths "KELP" } :=
  (C10_zero_best_price_like_empty stC10 "KELP").1 (by decide)

end ProsperousMonkeys
